import Mathlib

/-!
Shallow embedding of `src/rideSharingApp.js` (the current version of the
application).  JavaScript numbers are modelled as exact rationals (ℚ): every
arithmetic operation the program performs on them — additions, subtractions,
halving, doubling of small quantities — is exact in IEEE double precision,
so ℚ is a faithful model here.  The card token is modelled as the natural
number whose decimal string the validation regular expression inspects.
Console logging and event emission (`EventEmitter`) carry no state the
properties below depend on and are not modelled; `setTimeout` scheduling of
`rideCompleted` is outside the per-ride processing step modelled here.
-/

/-- Funding instrument of a rider (`paymentDetails` in the source): card
token, expiry indicator and balance. -/
structure PaymentDetails where
  cardNumber : Nat
  expirationDate : ℚ
  balance : ℚ
deriving DecidableEq

/-- Rider state (`class User`).  A `PremiumUser` differs only in starting
with `isPremium := true` and having a `getDiscount` method. -/
structure User where
  id : String
  name : String
  paymentDetails : PaymentDetails
  inRide : Bool
  premiumPoints : ℚ
  isPremium : Bool
deriving DecidableEq

/-- Driver state (`class Driver`).  `VIPRaiting` is the cumulative quality
score, `profit` the accumulated earnings. -/
structure Driver where
  id : Nat
  name : String
  profit : ℚ
  isAvailable : Bool
  isVIP : Bool
  VIPRaiting : ℚ
deriving DecidableEq

/-- A ride record (`class Ride`). -/
structure Ride where
  id : String
  pickUp : String
  dropOff : String
  fare : ℚ
  status : String
  distance : ℚ
  user : User
  driver : Driver
deriving DecidableEq

namespace User

/-- `User.upgradeToPremium`: sets the premium flag (the `premiumUser` event
emission is logging only). -/
def upgradeToPremium (u : User) : User :=
  { u with isPremium := true }

/-- `User.checkForUpgrade`: upgrade when points reached 50 and the rider is
not yet premium; there is no downgrade branch. -/
def checkForUpgrade (u : User) : User :=
  if 50 ≤ u.premiumPoints ∧ u.isPremium = false then u.upgradeToPremium else u

/-- `User.addPoints`: add the points, then re-check the tier (the
`pointsEarned` event emission is logging only). -/
def addPoints (u : User) (points : ℚ) : User :=
  checkForUpgrade { u with premiumPoints := u.premiumPoints + points }

end User

/-- `PremiumUser.getDiscount` in the source returns `0.1`. -/
def PremiumUser.getDiscount : ℚ := 1 / 10

namespace Driver

/-- `Driver.upgradetoVIP` (event emission is logging only). -/
def upgradetoVIP (d : Driver) : Driver :=
  { d with isVIP := true }

/-- `Driver.downgradeToRegular` (event emission is logging only). -/
def downgradeToRegular (d : Driver) : Driver :=
  { d with isVIP := false }

/-- `Driver.checkForUpgrade`: upgrade when the score reached 4 and the flag
is off, downgrade when the score is below 4 and the flag is on. -/
def checkForUpgrade (d : Driver) : Driver :=
  if 4 ≤ d.VIPRaiting ∧ d.isVIP = false then d.upgradetoVIP
  else if d.VIPRaiting < 4 ∧ d.isVIP = true then d.downgradeToRegular
  else d

/-- The score update performed by `Driver.addRaiting` before the tier
re-check: a zero cumulative score is first set to the rating, and then the
unconditional update `this.VIPRaiting += this.VIPRaiting + raiting / 2`
applies (the zero branch has no `else` and falls through). -/
def raitingUpdate (d : Driver) (raiting : ℚ) : Driver :=
  let d1 := if d.VIPRaiting = 0 then { d with VIPRaiting := raiting } else d
  { d1 with VIPRaiting := d1.VIPRaiting + (d1.VIPRaiting + raiting / 2) }

/-- `Driver.addRaiting`: update the cumulative score, then re-check the
tier. -/
def addRaiting (d : Driver) (raiting : ℚ) : Driver :=
  (d.raitingUpdate raiting).checkForUpgrade

end Driver

/-- Length of the decimal digit string of the card token: JavaScript
coerces the number to its decimal string before matching it against the
16-digit regular expression in `validatePayment`. -/
def decimalDigitCount (n : Nat) : Nat :=
  (Nat.toDigits 10 n).length

namespace PaymentService

/-- `PaymentService.validatePayment`: the regular expression demands exactly
16 decimal digits, the expiry indicator must exceed 20, and the balance
must cover the fare. -/
def validatePayment (paymentDetails : PaymentDetails) (fare : ℚ) : Bool :=
  decide (decimalDigitCount paymentDetails.cardNumber = 16)
    && decide (20 < paymentDetails.expirationDate)
    && decide (fare ≤ paymentDetails.balance)

/-- `PaymentService.processPayment`: debit the rider's balance by the fare
and credit the driver's earnings by the fare; nothing else is touched. -/
def processPayment (user : User) (fare : ℚ) (driver : Driver) : User × Driver :=
  ({ user with paymentDetails :=
      { user.paymentDetails with balance := user.paymentDetails.balance - fare } },
   { driver with profit := driver.profit + fare })

end PaymentService

namespace RideSharingApp

/-- `RideSharingApp.payment`: validate the rider's instrument against the
ride's fare and, on success, charge it.  Returns the success flag together
with the updated rider and driver.  The fare used is `ride.fare` itself:
no discount of any kind is computed, although the comment above the
function in the source says a premium discount is applied and
`PremiumUser.getDiscount` exists. -/
def payment (ride : Ride) : Bool × User × Driver :=
  if PaymentService.validatePayment ride.user.paymentDetails ride.fare then
    let p := PaymentService.processPayment ride.user ride.fare ride.driver
    (true, p.1, p.2)
  else
    (false, ride.user, ride.driver)

/-- The expression `user.PremiumUser` in the VIP gate of
`processMultipleRides`: no `User` object defines a `PremiumUser` property
(the premium flag is called `isPremium`), so in JavaScript this access
yields `undefined`, which is falsy. -/
def premiumUserProp (_ : User) : Bool := false

/-- One iteration of the loop body of `RideSharingApp.processMultipleRides`
for an already generated ride: `payment` is invoked first, then the VIP
gate `driver.isVIP && !user.PremiumUser` is evaluated, and only then does
the success branch mark the driver unavailable, mark the rider busy, set
the status to "active" and award loyalty points equal to the distance.
The asynchronous `rideCompleted` timer is scheduled afterwards and is not
part of this synchronous step.  Returns the rider, the driver and the ride
status after the step (a denied ride keeps its incoming status). -/
def processRideStep (ride : Ride) : User × Driver × String :=
  let pr := payment ride
  let user := pr.2.1
  let driver := pr.2.2
  if driver.isVIP && !premiumUserProp user then
    (user, driver, ride.status)
  else if pr.1 then
    let driver2 := { driver with isAvailable := false }
    let user2 := { user with inRide := true }
    (user2.addPoints ride.distance, driver2, "active")
  else
    (user, driver, ride.status)

/-- The pool check at the top of each `generateRides` iteration: the raw
`locations`, `users` and `drivers` arrays are tested for emptiness and the
initialization error is thrown when one of them is empty.  The filtered
pools (`users.filter(u => !u.inRide)`, `drivers.filter(d => d.isAvailable)`)
are built only later, when a participant is selected. -/
def generateRidesInitError (locations : List String) (users : List User)
    (drivers : List Driver) : Bool :=
  locations.length == 0 || users.length == 0 || drivers.length == 0

/-- The pool-emptiness condition as the specification states it: the batch
should fail when the locations, the non-busy riders, or the available
drivers are exhausted. -/
def specPoolsEmpty (locations : List String) (users : List User)
    (drivers : List Driver) : Bool :=
  locations.isEmpty || (users.filter (fun u => !u.inRide)).isEmpty
    || (drivers.filter (fun d => d.isAvailable)).isEmpty

end RideSharingApp

/-- An argument passed to `startApp`: either a JavaScript number (modelled
as an exact rational) or a value of any other runtime type. -/
inductive JSValue where
  | num (q : ℚ)
  | nonNumber
deriving DecidableEq

/-- The input guard of `RideSharingApp.startApp`: the batch (driver fetch
followed by ride processing) is started exactly when
`typeof numRides === "number"`; otherwise the function logs a message and
returns before any work. -/
def startAppStartsBatch : JSValue → Bool
  | JSValue.num _ => true
  | JSValue.nonNumber => false

/-- A 16-digit card instrument with ample balance, as in the seed rider
data. -/
def richDetails : PaymentDetails :=
  { cardNumber := 1234567890123456, expirationDate := 111, balance := 1000 }

/-- A rider already holding the premium tier. -/
def premiumRider : User :=
  { id := "u1", name := "Olivia Martinez", paymentDetails := richDetails,
    inRide := false, premiumPoints := 60, isPremium := true }

/-- A standard-tier rider. -/
def standardRider : User :=
  { id := "u4", name := "Alexander Wilson", paymentDetails := richDetails,
    inRide := false, premiumPoints := 0, isPremium := false }

/-- A VIP driver. -/
def vipDriver : Driver :=
  { id := 1, name := "Leanne Graham", profit := 0, isAvailable := true,
    isVIP := true, VIPRaiting := 5 }

/-- A freshly constructed driver, as `fetchDrivers` builds them:
zero profit, available, not VIP, zero cumulative score. -/
def freshDriver : Driver :=
  { id := 2, name := "Ervin Howell", profit := 0, isAvailable := true,
    isVIP := false, VIPRaiting := 0 }

/-- A ride as the factory builds it (distance 50, hence fare 100), for a
given rider and driver. -/
def mkRide (u : User) (d : Driver) : Ride :=
  { id := "0000000042", pickUp := "Location 1", dropOff := "Location 2",
    fare := 100, status := "requested", distance := 50, user := u, driver := d }

/-- A rider identical to the standard seed rider but currently in a ride. -/
def busyRider : User :=
  { standardRider with inRide := true }

/-! Helper lemmas about the tier-engine operations. -/

theorem User.addPoints_premiumPoints (u : User) (p : ℚ) :
    (u.addPoints p).premiumPoints = u.premiumPoints + p := by
  unfold User.addPoints User.checkForUpgrade User.upgradeToPremium
  split <;> rfl

theorem User.addPoints_isPremium (u : User) (p : ℚ) :
    (u.addPoints p).isPremium = (u.isPremium || decide (50 ≤ u.premiumPoints + p)) := by
  unfold User.addPoints User.checkForUpgrade User.upgradeToPremium
  by_cases h : 50 ≤ u.premiumPoints + p
  · by_cases hp : u.isPremium = true
    · simp [h, hp]
    · simp [h, hp]
  · simp [h]

theorem Driver.checkForUpgrade_VIPRaiting (d : Driver) :
    d.checkForUpgrade.VIPRaiting = d.VIPRaiting := by
  unfold Driver.checkForUpgrade Driver.upgradetoVIP Driver.downgradeToRegular
  split
  · rfl
  · split <;> rfl

theorem Driver.checkForUpgrade_isVIP (d : Driver) :
    d.checkForUpgrade.isVIP = decide (4 ≤ d.VIPRaiting) := by
  unfold Driver.checkForUpgrade Driver.upgradetoVIP Driver.downgradeToRegular
  by_cases h4 : 4 ≤ d.VIPRaiting
  · by_cases hv : d.isVIP = true
    · simp [h4, hv, not_lt.mpr h4]
    · simp [h4, hv]
  · by_cases hv : d.isVIP = true
    · simp [h4, hv, not_le.mp h4]
    · simp [h4, hv]

theorem Driver.raitingUpdate_VIPRaiting (d : Driver) (r : ℚ) :
    (d.raitingUpdate r).VIPRaiting =
      if d.VIPRaiting = 0 then r + (r + r / 2)
      else d.VIPRaiting + (d.VIPRaiting + r / 2) := by
  unfold Driver.raitingUpdate
  by_cases h : d.VIPRaiting = 0 <;> simp [h]

theorem Driver.addRaiting_VIPRaiting (d : Driver) (r : ℚ) :
    (d.addRaiting r).VIPRaiting =
      if d.VIPRaiting = 0 then r + (r + r / 2)
      else d.VIPRaiting + (d.VIPRaiting + r / 2) := by
  unfold Driver.addRaiting
  rw [Driver.checkForUpgrade_VIPRaiting, Driver.raitingUpdate_VIPRaiting]

/-- Claim C4 counterexample: the first rating ever given does not set the
cumulative score to that rating.  Applying rating 3 to a freshly
constructed driver (score 0) yields score 15/2, not 3: the zero branch of
`addRaiting` assigns the rating and then falls through to the unconditional
update `VIPRaiting += VIPRaiting + raiting / 2`. -/
theorem addRaiting_first_call_falls_through :
    (freshDriver.addRaiting 3).VIPRaiting = 15 / 2 ∧ (15 : ℚ) / 2 ≠ 3 := by
  constructor
  · rw [Driver.addRaiting_VIPRaiting]
    norm_num [freshDriver]
  · norm_num

/-- Claim C4 amended: on every `addRaiting` call, including the first, the
update rule applies; on the first call (cumulative score 0) the score is
first set to the rating r and then updated, yielding r + (r + r/2), and on
every later call the score s becomes s + (s + r/2).  For the rating
sequence [3, 4, 2] starting from score 0 the successive scores are 15/2,
17 and 35 (not 3, 8, 17). -/
theorem addRaiting_recurrence :
    (∀ (d : Driver) (r : ℚ),
        (d.addRaiting r).VIPRaiting =
          if d.VIPRaiting = 0 then r + (r + r / 2)
          else d.VIPRaiting + (d.VIPRaiting + r / 2)) ∧
    (freshDriver.addRaiting 3).VIPRaiting = 15 / 2 ∧
    ((freshDriver.addRaiting 3).addRaiting 4).VIPRaiting = 17 ∧
    (((freshDriver.addRaiting 3).addRaiting 4).addRaiting 2).VIPRaiting = 35 := by
  have h1 : (freshDriver.addRaiting 3).VIPRaiting = 15 / 2 := by
    rw [Driver.addRaiting_VIPRaiting]
    norm_num [freshDriver]
  have h2 : ((freshDriver.addRaiting 3).addRaiting 4).VIPRaiting = 17 := by
    rw [Driver.addRaiting_VIPRaiting, h1]
    norm_num
  have h3 : (((freshDriver.addRaiting 3).addRaiting 4).addRaiting 2).VIPRaiting = 35 := by
    rw [Driver.addRaiting_VIPRaiting, h2]
    norm_num
  exact ⟨Driver.addRaiting_VIPRaiting, h1, h2, h3⟩

/-- Claim C9: after every `addRaiting` call the VIP flag equals the
comparison of the new cumulative score with the threshold 4, in both
directions.  The second conjunct shows the downgrade direction actually
firing (a VIP driver whose updated score 5/2 is below 4 loses the flag),
the third the upgrade direction (a fresh driver whose updated score 15/2
reaches 4 gains it). -/
theorem addRaiting_isVIP_invariant :
    (∀ (d : Driver) (r : ℚ),
        ((d.addRaiting r).isVIP = true ↔ 4 ≤ (d.addRaiting r).VIPRaiting)) ∧
    ({ vipDriver with VIPRaiting := 1 }.addRaiting 1).isVIP = false ∧
    (freshDriver.addRaiting 3).isVIP = true := by
  refine ⟨fun d r => ?_, ?_, ?_⟩
  · unfold Driver.addRaiting
    rw [Driver.checkForUpgrade_isVIP, Driver.checkForUpgrade_VIPRaiting]
    simp [decide_eq_true_eq]
  · unfold Driver.addRaiting
    rw [Driver.checkForUpgrade_isVIP, Driver.raitingUpdate_VIPRaiting]
    norm_num [vipDriver]
  · unfold Driver.addRaiting
    rw [Driver.checkForUpgrade_isVIP, Driver.raitingUpdate_VIPRaiting]
    norm_num [freshDriver]

/-- Claim C10: `processPayment` changes exactly the rider's balance
(decreased by the fare) and the driver's earnings (increased by the fare);
every other rider and driver field — identity, card data, busy flag,
points, premium tier, availability, score, VIP tier — is unchanged.  Its
signature involves nothing else, in particular no ride registry. -/
theorem processPayment_frame (u : User) (fare : ℚ) (d : Driver) :
    (PaymentService.processPayment u fare d).1.paymentDetails.balance
        = u.paymentDetails.balance - fare ∧
    (PaymentService.processPayment u fare d).2.profit = d.profit + fare ∧
    (PaymentService.processPayment u fare d).1.id = u.id ∧
    (PaymentService.processPayment u fare d).1.name = u.name ∧
    (PaymentService.processPayment u fare d).1.paymentDetails.cardNumber
        = u.paymentDetails.cardNumber ∧
    (PaymentService.processPayment u fare d).1.paymentDetails.expirationDate
        = u.paymentDetails.expirationDate ∧
    (PaymentService.processPayment u fare d).1.inRide = u.inRide ∧
    (PaymentService.processPayment u fare d).1.premiumPoints = u.premiumPoints ∧
    (PaymentService.processPayment u fare d).1.isPremium = u.isPremium ∧
    (PaymentService.processPayment u fare d).2.id = d.id ∧
    (PaymentService.processPayment u fare d).2.name = d.name ∧
    (PaymentService.processPayment u fare d).2.isAvailable = d.isAvailable ∧
    (PaymentService.processPayment u fare d).2.isVIP = d.isVIP ∧
    (PaymentService.processPayment u fare d).2.VIPRaiting = d.VIPRaiting :=
  ⟨rfl, rfl, rfl, rfl, rfl, rfl, rfl, rfl, rfl, rfl, rfl, rfl, rfl, rfl⟩

/-- Claim C6: payment validation succeeds exactly when the card token has
16 decimal digits, the expiry indicator exceeds 20 and the balance covers
the required fare; a 15-digit token is rejected whatever the balance and
fare; a 16-digit token with balance exactly the required fare succeeds;
balance one unit below the required fare fails. -/
theorem validatePayment_characterization :
    (∀ (pd : PaymentDetails) (fare : ℚ),
        PaymentService.validatePayment pd fare = true ↔
          (decimalDigitCount pd.cardNumber = 16 ∧ 20 < pd.expirationDate ∧
            fare ≤ pd.balance)) ∧
    (∀ b fare : ℚ,
        PaymentService.validatePayment
          { cardNumber := 123456789012345, expirationDate := 111, balance := b }
          fare = false) ∧
    PaymentService.validatePayment
      { cardNumber := 1234567890123456, expirationDate := 111, balance := 100 }
      100 = true ∧
    PaymentService.validatePayment
      { cardNumber := 1234567890123456, expirationDate := 111, balance := 99 }
      100 = false := by
  refine ⟨?_, ?_, by decide, by decide⟩
  · intro pd fare
    simp [PaymentService.validatePayment, and_assoc]
  · intro b fare
    have h15 : decimalDigitCount 123456789012345 = 15 := by decide
    simp [PaymentService.validatePayment, h15]

/-- Claim C5 counterexample: with one location, one rider who is busy and
one available driver, the non-busy rider pool demanded by the claim is
empty, yet the check at the top of `generateRides` does not raise the
initialization error, because it tests the raw `users` list rather than
the filtered pool. -/
theorem empty_filtered_pool_no_init_error :
    RideSharingApp.specPoolsEmpty ["Location 1"] [busyRider] [freshDriver] = true ∧
    RideSharingApp.generateRidesInitError ["Location 1"] [busyRider] [freshDriver]
      = false := by
  constructor
  · simp [RideSharingApp.specPoolsEmpty, busyRider, standardRider, freshDriver]
  · simp [RideSharingApp.generateRidesInitError]

/-- Claim C5 amended: the initialization error that aborts the batch is
raised exactly when one of the raw `locations`, `users` or `drivers` lists
is empty; the filtered pools of non-busy riders and available drivers are
not consulted by the check. -/
theorem generateRides_init_check (locations : List String) (users : List User)
    (drivers : List Driver) :
    RideSharingApp.generateRidesInitError locations users drivers = true ↔
      (locations = [] ∨ users = [] ∨ drivers = []) := by
  simp [RideSharingApp.generateRidesInitError, List.length_eq_zero, or_assoc]

/-- Claim C7 counterexample: the count 0 is non-positive, yet it passes the
`typeof` guard of `startApp` and the batch is started (the driver fetch and
ride processing are reached). -/
theorem nonpositive_count_starts_batch :
    startAppStartsBatch (JSValue.num 0) = true ∧ ¬(0 < (0 : ℚ)) := by
  exact ⟨rfl, by norm_num⟩

/-- Claim C7 amended: the batch entry point rejects exactly non-numeric
input with a user-visible message before any work begins; every numeric
ride count, positive or not, passes the guard and the batch is started. -/
theorem startApp_guard (v : JSValue) :
    startAppStartsBatch v = true ↔ ∃ q : ℚ, v = JSValue.num q := by
  cases v with
  | num q => exact ⟨fun _ => ⟨q, rfl⟩, fun _ => rfl⟩
  | nonNumber =>
      constructor
      · intro h
        exact absurd h (by simp [startAppStartsBatch])
      · rintro ⟨q, hq⟩
        exact absurd hq (by simp)

/-- Claim C1 (evaluation of the code at the failing input): a Premium rider
with fare 100 and a valid instrument passes validation against the full
fare and is charged the full 100 (balance 1000 becomes 900), not the
discounted 90 demanded by the specification (balance 910):
`payment` never consults the premium tier and `PremiumUser.getDiscount` is
never invoked. -/
theorem payment_charges_premium_full_fare :
    premiumRider.isPremium = true ∧
    (RideSharingApp.payment (mkRide premiumRider vipDriver)).1 = true ∧
    (RideSharingApp.payment (mkRide premiumRider vipDriver)).2.1.paymentDetails.balance
      = 900 ∧
    (900 : ℚ) ≠ 1000 - 100 * (1 - PremiumUser.getDiscount) := by
  refine ⟨rfl, ?_, ?_, ?_⟩
  · simp +decide [RideSharingApp.payment, mkRide, premiumRider, richDetails,
      PaymentService.validatePayment, PaymentService.processPayment, decimalDigitCount]
  · simp +decide [RideSharingApp.payment, mkRide, premiumRider, richDetails,
      PaymentService.validatePayment, PaymentService.processPayment, decimalDigitCount]
    norm_num
  · norm_num [PremiumUser.getDiscount]

/-- Claim C2 (evaluation of the code at the failing input): a VIP driver
paired with a Premium rider whose payment is valid does not proceed to
status "active": the VIP gate reads the nonexistent `PremiumUser` property
instead of `isPremium`, so every ride with a VIP driver is denied and the
status stays "requested". -/
theorem vip_premium_ride_denied :
    PaymentService.validatePayment premiumRider.paymentDetails
      (mkRide premiumRider vipDriver).fare = true ∧
    premiumRider.isPremium = true ∧
    vipDriver.isVIP = true ∧
    (RideSharingApp.processRideStep (mkRide premiumRider vipDriver)).2.2
      = "requested" ∧
    "requested" ≠ "active" := by
  refine ⟨by decide, rfl, rfl, ?_, by decide⟩
  simp +decide [RideSharingApp.processRideStep, RideSharingApp.payment,
    RideSharingApp.premiumUserProp, mkRide, premiumRider, vipDriver, richDetails,
    PaymentService.validatePayment, PaymentService.processPayment, decimalDigitCount]

/-- Claim C3 (evaluation of the code at the failing input): processing a
ride whose pairing is ineligible (VIP driver, Standard rider) with a valid
instrument leaves the busy/availability flags unchanged, but it does charge
payment, because `payment` is invoked before the VIP gate: the rider's
balance drops from 1000 to 900 and the driver's earnings rise from 0 to
100 even though the ride is denied (status stays "requested"). -/
theorem ineligible_ride_still_charged :
    standardRider.isPremium = false ∧
    standardRider.paymentDetails.balance = 1000 ∧
    vipDriver.profit = 0 ∧
    (RideSharingApp.processRideStep (mkRide standardRider vipDriver)).1.paymentDetails.balance
      = 900 ∧
    (RideSharingApp.processRideStep (mkRide standardRider vipDriver)).2.1.profit = 100 ∧
    (RideSharingApp.processRideStep (mkRide standardRider vipDriver)).1.inRide
      = standardRider.inRide ∧
    (RideSharingApp.processRideStep (mkRide standardRider vipDriver)).2.1.isAvailable
      = vipDriver.isAvailable ∧
    (RideSharingApp.processRideStep (mkRide standardRider vipDriver)).2.2
      = "requested" := by
  refine ⟨rfl, rfl, rfl, ?_, ?_, ?_, ?_, ?_⟩ <;>
    simp +decide [RideSharingApp.processRideStep, RideSharingApp.payment,
      RideSharingApp.premiumUserProp, mkRide, standardRider, vipDriver, richDetails,
      PaymentService.validatePayment, PaymentService.processPayment,
      decimalDigitCount]
  all_goals norm_num

/-- Claim C8: the premium flag after any sequence of `addPoints` calls is
set exactly when it was set initially or some call made the accumulated
points reach 50.  Instantiated at every prefix of the call sequence, this
says the flag flips false→true exactly at the first call after which the
accumulated points are at least 50, and never reverts afterwards. -/
theorem user_isPremium_characterization (u : User) (ps : List ℚ) :
    ((ps.foldl User.addPoints u).isPremium = true) ↔
      (u.isPremium = true ∨
        ∃ n, 1 ≤ n ∧ n ≤ ps.length ∧ 50 ≤ u.premiumPoints + (ps.take n).sum) := by
  induction ps generalizing u with
  | nil =>
      constructor
      · intro h
        exact Or.inl h
      · rintro (h | ⟨n, hn1, hn2, hs⟩)
        · exact h
        · simp only [List.length_nil] at hn2
          omega
  | cons p t ih =>
      rw [List.foldl_cons, ih, User.addPoints_isPremium, User.addPoints_premiumPoints]
      simp only [Bool.or_eq_true, decide_eq_true_eq, List.length_cons]
      constructor
      · rintro ((hp | h50) | ⟨n, hn1, hn2, hsum⟩)
        · exact Or.inl hp
        · refine Or.inr ⟨1, le_refl 1, by omega, ?_⟩
          simpa [List.take_succ_cons] using h50
        · refine Or.inr ⟨n + 1, by omega, by omega, ?_⟩
          have hs : ((p :: t).take (n + 1)).sum = p + (t.take n).sum := by
            simp [List.take_succ_cons]
          rw [hs]
          linarith
      · rintro (hp | ⟨n, hn1, hn2, hsum⟩)
        · exact Or.inl (Or.inl hp)
        · obtain ⟨m, rfl⟩ : ∃ m, n = m + 1 := ⟨n - 1, by omega⟩
          have hs : ((p :: t).take (m + 1)).sum = p + (t.take m).sum := by
            simp [List.take_succ_cons]
          rw [hs] at hsum
          cases m with
          | zero =>
              refine Or.inl (Or.inr ?_)
              simpa using hsum
          | succ k =>
              refine Or.inr ⟨k + 1, by omega, by omega, ?_⟩
              linarith
